import Mathlib

/-!
Verification development for src/exercises/exercise-09/index.ts.

The program is a callback-to-promise adapter exercise.  Effectful
TypeScript procedures are embedded in state-passing style: a procedure
returning void becomes a function from a state type to the same state
type, and a callback becomes a function from its argument and a state to
an updated state paired with the callback return value (the return value
is discarded by every caller in the source, exactly as in TypeScript).
JavaScript runtime values that flow through the dynamically typed parts
of the program (the `any`-typed result of `promisify`) are modelled by
the universe `JsVal`, with `JsVal.undef` standing for `undefined`.
-/

/-- Embeds interface User (fields name, age, occupation; the constant
discriminant field type: user is represented by the `Person.user`
constructor below). -/
structure User where
  name : String
  age : Nat
  occupation : String
deriving DecidableEq, Repr

/-- Embeds interface Admin (fields name, age, role; discriminant
type: admin is the `Person.admin` constructor below). -/
structure Admin where
  name : String
  age : Nat
  role : String
deriving DecidableEq, Repr

/-- Embeds type Person = User | Admin, a tagged union discriminated by
the `type` field in TypeScript. -/
inductive Person where
  | user (u : User)
  | admin (a : Admin)
deriving DecidableEq, Repr

/-- Embeds the module constant `admins` (static sample data). -/
def admins : List Admin :=
  [ { name := "Jane Doe", age := 32, role := "Administrator" },
    { name := "Bruce Willis", age := 64, role := "World saver" } ]

/-- Embeds the module constant `users` (static sample data). -/
def users : List User :=
  [ { name := "Max Mustermann", age := 25, occupation := "Chimney sweep" },
    { name := "Kate Müller", age := 23, occupation := "Astronaut" } ]

/-- Embeds type ApiResponse of T: either status success with `data : T`
or status error with `error : String`. -/
inductive ApiResponse (T : Type) where
  | success (data : T)
  | error (error : String)
deriving DecidableEq, Repr

/-- Universe of JavaScript runtime values appearing in the dynamically
typed parts of the program.  `undef` is the JavaScript value
`undefined`. -/
inductive JsVal where
  | undef
  | num (n : Int)
  | str (s : String)
  | adminsList (l : List Admin)
  | usersList (l : List User)
deriving DecidableEq, Repr

/-- JavaScript runtime errors thrown during evaluation.  The program
only ever throws a TypeError (property access on `undefined`). -/
inductive JsError where
  | typeError (message : String)
deriving DecidableEq, Repr

/-- The `message` property of a JavaScript error object. -/
def JsError.message : JsError → String
  | JsError.typeError m => m

/-- Embeds oldApi.requestAdmins: the body is the single statement
`callback({status: success, data: admins})`; the callback return value
is discarded and the function returns undefined (hence result type σ,
the final state).  Generic in the state σ and in the callback return
type R. -/
def oldApi.requestAdmins {σ R : Type}
    (callback : ApiResponse (List Admin) → σ → σ × R) (s : σ) : σ :=
  (callback (ApiResponse.success admins) s).1

/-- Embeds oldApi.requestUsers: single statement
`callback({status: success, data: users})`. -/
def oldApi.requestUsers {σ R : Type}
    (callback : ApiResponse (List User) → σ → σ × R) (s : σ) : σ :=
  (callback (ApiResponse.success users) s).1

/-- Embeds oldApi.requestCurrentServerTime: single statement
`callback({status: success, data: Date.now()})`.  The clock reading
Date.now() is modelled by the extra parameter `now`. -/
def oldApi.requestCurrentServerTime {σ R : Type} (now : Int)
    (callback : ApiResponse Int → σ → σ × R) (s : σ) : σ :=
  (callback (ApiResponse.success now) s).1

/-- Embeds oldApi.requestCoffeeMachineQueueLength: single statement
`callback({status: error, error: ...MAX_SAFE_INTEGER message})`. -/
def oldApi.requestCoffeeMachineQueueLength {σ R : Type}
    (callback : ApiResponse Int → σ → σ × R) (s : σ) : σ :=
  (callback (ApiResponse.error
    "Numeric value has exceeded Number.MAX_SAFE_INTEGER.") s).1

/-- Embeds the local constant `tempCallback` defined inside the body of
`promisify`: on a success response it returns `response.data`, on an
error response it returns `response.error` (return type T | string,
modelled as a sum).  Its body has no side effect, so the state passes
through unchanged. -/
def tempCallback {T σ : Type} (response : ApiResponse T) (s : σ) :
    σ × (T ⊕ String) :=
  match response with
  | ApiResponse.success data => (s, Sum.inl data)
  | ApiResponse.error error => (s, Sum.inr error)

/-- Embeds function promisify of T (return type `any`): it defines
tempCallback, evaluates the statement `arg(tempCallback)` (whose value
is discarded), and falls off the end of its body without a return
statement, so the call expression evaluates to the JavaScript value
`undefined` (`JsVal.undef`). -/
def promisify {T σ : Type}
    (arg : (ApiResponse T → σ → σ × (T ⊕ String)) → σ → σ) (s : σ) :
    σ × JsVal :=
  (arg tempCallback s, JsVal.undef)

/-- Embeds api.requestAdmins, the arrow function
`() => promisify(oldApi.requestAdmins)` with T = Admin[]. -/
def api.requestAdmins {σ : Type} (s : σ) : σ × JsVal :=
  @promisify (List Admin) σ oldApi.requestAdmins s

/-- Embeds api.requestUsers, `() => promisify(oldApi.requestUsers)`
with T = User[]. -/
def api.requestUsers {σ : Type} (s : σ) : σ × JsVal :=
  @promisify (List User) σ oldApi.requestUsers s

/-- Embeds api.requestCurrentServerTime,
`() => promisify(oldApi.requestCurrentServerTime)` with T = number;
the clock reading is the parameter `now`. -/
def api.requestCurrentServerTime (now : Int) {σ : Type} (s : σ) :
    σ × JsVal :=
  @promisify Int σ (oldApi.requestCurrentServerTime now) s

/-- Embeds api.requestCoffeeMachineQueueLength,
`() => promisify(oldApi.requestCoffeeMachineQueueLength)` with
T = number. -/
def api.requestCoffeeMachineQueueLength {σ : Type} (s : σ) : σ × JsVal :=
  @promisify Int σ oldApi.requestCoffeeMachineQueueLength s

/-- The JavaScript value of an adapted api call in a context where the
call has no observable side effect on the program state (true of every
call site: the callbacks involved are pure), obtained by running it on
the trivial state. -/
def apiVal (call : Unit → Unit × JsVal) : JsVal :=
  (call ()).2

/-- Monad of the asynchronous presentation routine: console output is
the state (the list of printed lines, in order) and a thrown JavaScript
error rejects the computation, skipping the rest of the chain. -/
def AppM (α : Type) : Type := List String → Except JsError α × List String

instance : Monad AppM where
  pure a := fun lines => (Except.ok a, lines)
  bind x f := fun lines =>
    match x lines with
    | (Except.ok a, lines2) => f a lines2
    | (Except.error e, lines2) => (Except.error e, lines2)

/-- Embeds console.log of a single line of text. -/
def consoleLog (line : String) : AppM Unit :=
  fun lines => (Except.ok (), lines ++ [line])

/-- Throwing a JavaScript runtime error inside the routine: the
awaited chain is aborted with that error as the rejection cause. -/
def throwJs {α : Type} (e : JsError) : AppM α :=
  fun lines => (Except.error e, lines)

/-- Evaluation of an `await v` expression where `v` is not a thenable:
in JavaScript, awaiting a plain value resolves to the value itself and
never rejects. -/
def awaitValue (v : JsVal) : Except JsError JsVal :=
  Except.ok v

/-- The `await` step inside the routine, lifting `awaitValue`. -/
def awaitAppM (v : JsVal) : AppM JsVal :=
  fun lines => (awaitValue v, lines)

/-- Embeds chalk.green: ANSI terminal coloring, a pure presentation
detail, is not modelled, so the text passes through unchanged. -/
def chalkGreen (s : String) : String := s

/-- Embeds chalk.yellow (coloring not modelled, as for chalkGreen). -/
def chalkYellow (s : String) : String := s

/-- The `name` property of a Person (present in both variants). -/
def Person.name : Person → String
  | Person.user u => u.name
  | Person.admin a => a.name

/-- The `age` property of a Person (present in both variants). -/
def Person.age : Person → Nat
  | Person.user u => u.age
  | Person.admin a => a.age

/-- Embeds function logPerson: the line printed for one person, with
the ternary on the discriminant choosing role for an admin and
occupation for a user. -/
def logPerson (person : Person) : String :=
  " - " ++ chalkGreen person.name ++ ", " ++ toString person.age ++ ", " ++
    (match person with
     | Person.admin a => a.role
     | Person.user u => u.occupation)

/-- Rendering of a JavaScript value by console.log and by template
literal interpolation.  `undefined` renders as the text undefined; the
renderings of the other variants are runtime formatting details that no
execution of the program reaches. -/
def showJsVal : JsVal → String
  | JsVal.undef => "undefined"
  | JsVal.num n => toString n
  | JsVal.str s => s
  | JsVal.adminsList _ => "[Array]"
  | JsVal.usersList _ => "[Array]"

/-- Evaluation of `v.forEach(logPerson)`: on an array it prints one
line per element; on `undefined` it throws a TypeError (property access
on undefined); on any other non-array value the method lookup fails
with a TypeError as well. -/
def forEachLogPerson (v : JsVal) : AppM Unit :=
  match v with
  | JsVal.adminsList l => l.forM (fun a => consoleLog (logPerson (Person.admin a)))
  | JsVal.usersList l => l.forM (fun u => consoleLog (logPerson (Person.user u)))
  | JsVal.undef =>
      throwJs (JsError.typeError
        "Cannot read properties of undefined (reading forEach)")
  | _ => throwJs (JsError.typeError "forEach is not a function")

/-- Evaluation of `new Date(v).toLocaleString()`: constructing a Date
from `undefined` gives an Invalid Date; the locale rendering of a valid
timestamp is a runtime detail no execution of the program reaches. -/
def dateToLocaleString : JsVal → String
  | JsVal.num n => "Date(" ++ toString n ++ ")"
  | _ => "Invalid Date"

/-- Embeds async function startTheApp, statement by statement in source
order.  Each api.requestX() call evaluates to a JsVal via apiVal (the
calls have no effect on the console state); `await` is awaitAppM.  The
second console.log prints the value of api.requestAdmins() followed by
the extra argument; the third prints the function object itself, whose
console rendering is the usual bracketed function form. -/
def startTheApp (now : Int) : AppM Unit := do
  consoleLog "Pasó 0"
  consoleLog (showJsVal (apiVal api.requestAdmins) ++ " Siiii siiii 1")
  consoleLog "[Function: requestAdmins] Siiii siiii 2"
  consoleLog (chalkYellow "Admins:")
  let a ← awaitAppM (apiVal api.requestAdmins)
  forEachLogPerson a
  consoleLog ""
  consoleLog "Pasó 1"
  consoleLog (chalkYellow "Users:")
  let u ← awaitAppM (apiVal api.requestUsers)
  forEachLogPerson u
  consoleLog ""
  consoleLog "Pasó 2"
  consoleLog (chalkYellow "Server time:")
  let t ← awaitAppM (apiVal (api.requestCurrentServerTime now))
  consoleLog ("   " ++ dateToLocaleString t)
  consoleLog ""
  consoleLog "Pasó 3"
  consoleLog (chalkYellow "Coffee machine queue length:")
  let q ← awaitAppM (apiVal api.requestCoffeeMachineQueueLength)
  consoleLog ("   " ++ showJsVal q)
  consoleLog "Pasó 4"

/-- Running startTheApp from an empty console: the settled outcome of
its returned promise together with the lines printed along the way. -/
def startTheAppRun (now : Int) : Except JsError Unit × List String :=
  startTheApp now []

/-- Embeds the top-level `startTheApp().then(onFulfilled, onRejected)`
handler: on fulfillment it prints Success!, on rejection it prints the
single error line built from e.message.  The result is the complete
console output of one run of the program. -/
def runApp (now : Int) : List String :=
  match startTheAppRun now with
  | (Except.ok _, lines) => lines ++ ["Success!"]
  | (Except.error e, lines) =>
      lines ++
        ["Error: \"" ++ JsError.message e ++
          "\", but it\x27s fine, sometimes errors are inevitable."]

/-- A callback that records, in order, every response it is invoked
with; used to observe how the functions under test use their
callback. -/
def recordingCallback {T : Type} (response : ApiResponse T)
    (log : List (ApiResponse T)) : List (ApiResponse T) × Unit :=
  (log ++ [response], ())

/-- Claim C1: the claim says promisify of a function calling back once
with Success data completes successfully with that data.  On the code,
promisify has no return statement: applied to oldApi.requestAdmins
(which calls back exactly once with Success admins) the call expression
evaluates to undefined, and awaiting it resolves with undefined rather
than with the admins list. -/
theorem promisify_success_endpoint_evaluates_to_undefined :
    (@promisify (List Admin) Unit oldApi.requestAdmins ()).2 = JsVal.undef ∧
    awaitValue (@promisify (List Admin) Unit oldApi.requestAdmins ()).2 =
      Except.ok JsVal.undef :=
  ⟨rfl, rfl⟩

/-- Claim C2: the claim says promisify of a function calling back with
Failure error completes with a failure carrying the error payload.  On
the code, promisify applied to oldApi.requestCoffeeMachineQueueLength
(which calls back exactly once with the fixed error) evaluates to
undefined, and awaiting it resolves successfully with undefined: no
failure is produced at all. -/
theorem promisify_failure_endpoint_does_not_reject :
    (@promisify Int Unit oldApi.requestCoffeeMachineQueueLength ()).2 =
      JsVal.undef ∧
    awaitValue (@promisify Int Unit oldApi.requestCoffeeMachineQueueLength ()).2 =
      Except.ok JsVal.undef :=
  ⟨rfl, rfl⟩

/-- Claim C3: promisify invokes its argument exactly once, synchronously
during the call.  First conjunct: for every wrapped function and every
starting state, the state promisify returns is exactly one application
of the wrapped function to tempCallback, so the invocation happens
before promisify returns and contributes exactly one invocation effect.
Second conjunct: instantiating the state with an invocation counter and
the wrapped function with one that increments it, the counter after
promisify is exactly 1. -/
theorem promisify_invokes_arg_exactly_once :
    (∀ (T σ : Type)
      (arg : (ApiResponse T → σ → σ × (T ⊕ String)) → σ → σ) (s : σ),
      (promisify arg s).1 = arg tempCallback s) ∧
    (@promisify Nat Nat (fun _ n => n + 1) 0).1 = 1 :=
  ⟨fun _ _ _ _ => rfl, rfl⟩

/-- Claim C4: the claim says the adapted queue-length call rejects with
the MAX_SAFE_INTEGER message.  On the code it evaluates to undefined
and awaiting it resolves successfully with undefined: it never
rejects, and the error message is dropped inside tempCallback. -/
theorem requestCoffeeMachineQueueLength_does_not_reject :
    (@api.requestCoffeeMachineQueueLength Unit ()).2 = JsVal.undef ∧
    awaitValue (@api.requestCoffeeMachineQueueLength Unit ()).2 =
      Except.ok JsVal.undef :=
  ⟨rfl, rfl⟩

/-- Claim C5: the claim says the adapted api.requestAdmins() resolves to
the two-element admin list.  On the code it resolves (as a plain
awaited value) to undefined.  The second conjunct records that the
static admins constant does consist of exactly the two claimed records
in the claimed order, so the data the claim names exists in the program
but is never delivered as the resolution value. -/
theorem requestAdmins_does_not_resolve_with_admins :
    awaitValue (@api.requestAdmins Unit ()).2 = Except.ok JsVal.undef ∧
    admins = [ { name := "Jane Doe", age := 32, role := "Administrator" },
               { name := "Bruce Willis", age := 64, role := "World saver" } ] :=
  ⟨rfl, rfl⟩

/-- Claim C6: the claim says a run prints the admins, users and server
time and then one queue-length error line.  On the code, for every
clock reading, the run prints only the debug lines and the Admins
header and then the single TypeError line: the routine throws at the
very first forEach on the undefined result of api.requestAdmins(), so
no person line (in particular not the Jane Doe line) and no server-time
output is ever printed. -/
theorem presentation_output_stops_at_first_forEach :
    ∀ now : Int,
      runApp now = [ "Pasó 0", "undefined Siiii siiii 1",
        "[Function: requestAdmins] Siiii siiii 2", "Admins:",
        "Error: \"Cannot read properties of undefined (reading forEach)\", but it\x27s fine, sometimes errors are inevitable." ] ∧
      (runApp now).count
        (logPerson (Person.admin
          { name := "Jane Doe", age := 32, role := "Administrator" })) = 0 :=
  fun _ => ⟨rfl, rfl⟩

/-- Claim C7: each of the four mock operations invokes its callback
exactly once, synchronously, with its fixed result.  Running each with
a callback that records every response received, the trace at the
moment the operation returns is exactly one response: Success admins,
Success users, Success now (the clock reading), and the fixed
MAX_SAFE_INTEGER Failure respectively. -/
theorem oldApi_invokes_callback_once_with_fixed_result :
    ∀ now : Int,
      oldApi.requestAdmins recordingCallback [] =
        [ApiResponse.success admins] ∧
      oldApi.requestUsers recordingCallback [] =
        [ApiResponse.success users] ∧
      oldApi.requestCurrentServerTime now recordingCallback [] =
        [ApiResponse.success now] ∧
      oldApi.requestCoffeeMachineQueueLength recordingCallback [] =
        [ApiResponse.error
          "Numeric value has exceeded Number.MAX_SAFE_INTEGER."] :=
  fun _ => ⟨rfl, rfl, rfl, rfl⟩

/-- Claim C8: no operation mutates the static sample data.  First
conjunct: every adapted api call is the identity on the threaded
program state, for an arbitrary state type, so whatever the state holds
(including the sample data) is unchanged by any call.  Remaining
conjuncts: calling a data endpoint again after a previous call delivers
a response equal to the first, both equal to the static constant, so
the lists (elementwise, by list equality) are identical before and
after any call. -/
theorem api_calls_preserve_state_and_data :
    (∀ (σ : Type) (s : σ) (now : Int),
      (api.requestAdmins s).1 = s ∧ (api.requestUsers s).1 = s ∧
      (api.requestCurrentServerTime now s).1 = s ∧
      (api.requestCoffeeMachineQueueLength s).1 = s) ∧
    oldApi.requestAdmins recordingCallback
        (oldApi.requestAdmins recordingCallback []) =
      [ApiResponse.success admins, ApiResponse.success admins] ∧
    oldApi.requestUsers recordingCallback
        (oldApi.requestUsers recordingCallback []) =
      [ApiResponse.success users, ApiResponse.success users] :=
  ⟨fun _ _ _ => ⟨rfl, rfl, rfl, rfl⟩, rfl, rfl⟩

/-- Claim C9: promisify returns undefined for every wrapped function and
every state, each of the four adapted api calls therefore evaluates to
undefined, and awaiting undefined resolves with undefined. -/
theorem promisify_and_api_return_undefined :
    (∀ (T σ : Type)
      (arg : (ApiResponse T → σ → σ × (T ⊕ String)) → σ → σ) (s : σ),
      (promisify arg s).2 = JsVal.undef) ∧
    (∀ (σ : Type) (s : σ) (now : Int),
      (api.requestAdmins s).2 = JsVal.undef ∧
      (api.requestUsers s).2 = JsVal.undef ∧
      (api.requestCurrentServerTime now s).2 = JsVal.undef ∧
      (api.requestCoffeeMachineQueueLength s).2 = JsVal.undef) ∧
    awaitValue JsVal.undef = Except.ok JsVal.undef :=
  ⟨fun _ _ _ _ => rfl, fun _ _ _ => ⟨rfl, rfl, rfl, rfl⟩, rfl⟩

/-- Claim C10: for every clock reading, startTheApp settles in the
rejected state with the TypeError thrown by forEach on undefined, the
Success! line and the Pasó 4 line never appear in the output, and the
single error line of the top-level rejection handler appears exactly
once. -/
theorem startTheApp_always_rejects :
    ∀ now : Int,
      (startTheAppRun now).1 = Except.error (JsError.typeError
        "Cannot read properties of undefined (reading forEach)") ∧
      (runApp now).count "Success!" = 0 ∧
      (runApp now).count "Pasó 4" = 0 ∧
      (runApp now).count
        ("Error: \"Cannot read properties of undefined (reading forEach)\", but it\x27s fine, sometimes errors are inevitable.") = 1 :=
  fun _ => ⟨rfl, rfl, rfl, rfl⟩
